import Mathlib

/-!
# Shallow embedding of `src/core/server/http/http_server.ts` (`HttpServer`)

This file embeds the Kibana `HttpServer` class as a Lean state machine and
proves the spec's testable properties about it.

Translation conventions:
* JS strings are Lean `String`s; where a proof needs to look at characters we
  go through `String.data : List Char` (code-point sequences, faithful for the
  ASCII paths appearing in the claims).
* The two `WeakMap`s (`basePathCache`, `authState`) are association lists
  keyed by a request identity `ReqId := Nat` (the underlying incoming-message
  object's identity).
* `throw new Error(...)` becomes an error value returned next to the
  (possibly already mutated) state, so that partial mutation before a throw is
  observable, exactly as in the source (`registerAuth` sets `authRegistered`
  before its `await`, which can reject).
* The hapi `Server` is modelled by the pieces `HttpServer` actually touches:
  the listening flag, the bound-route table, the installed `ext` hooks and the
  auth scheme/default installation.
-/

set_option autoImplicit false

namespace HttpSrv

/-- Request identity: stands for the underlying incoming-message object used
as the `WeakMap` key. -/
abbrev ReqId := Nat

/-- `enum AuthStatus` from the source. -/
inductive AuthStatus where
  | authenticated
  | unauthenticated
  | unknown
  deriving DecidableEq, Repr

/-- The distinct `throw new Error(...)` sites of `HttpServer`, plus the
rejection of the cookie-session-storage construction awaited inside
`registerAuth`. -/
inductive HttpError where
  /-- "Routers can be registered only when HTTP server is stopped." -/
  | routersLocked
  /-- "Request basePath was previously set. Setting multiple times is not supported." -/
  | basePathAlreadySet
  /-- "Http server is not setup up yet" (thrown by `start`). -/
  | notSetUp
  /-- "Server is not created yet" (thrown by the register* methods). -/
  | serverNotCreated
  /-- "Auth interceptor was already registered" -/
  | authAlreadyRegistered
  /-- The awaited `createCookieSessionStorageFactory` promise rejected. -/
  | cookieFactoryFailure
  deriving DecidableEq, Repr

/-- The part of `HttpConfig` that `HttpServer` reads: `basePath` (optional)
and `rewriteBasePath`. Host/port/TLS options only feed `getServerOptions`
and never influence the claims. -/
structure HttpConfig where
  basePath : Option String
  rewriteBasePath : Bool
  deriving DecidableEq, Repr

/-- A route entry of a `Router`: `{method, path, handler, authRequired}`.
The handler is an opaque identifier. -/
structure Route where
  method : String
  path : String
  handler : Nat
  authRequired : Bool
  deriving DecidableEq, Repr

/-- A `Router`: identity is its path prefix plus its routes (structural
equality stands for JS object identity in the `Set<Router>`). -/
structure Router where
  path : String
  routes : List Route
  deriving DecidableEq, Repr

/-- `router.getRoutes()`. -/
def Router.getRoutes (r : Router) : List Route := r.routes

/-- JS `String.prototype.startsWith(p)`: `p` is a prefix of the code-unit
sequence. -/
def jsStartsWith (s p : String) : Bool := p.data.isPrefixOf s.data

/-- JS `String.prototype.endsWith(p)`: `p` is a suffix of the code-unit
sequence. -/
def jsEndsWith (s p : String) : Bool := p.data.isSuffixOf s.data

/-- JS `String.prototype.slice(i)` for a nonnegative `i`: drop the first `i`
code units. -/
def jsSlice (s : String) (i : Nat) : String := ⟨s.data.drop i⟩

/-- Remove the first occurrence of `pat` from `s` (the list-of-chars core of
JS `s.replace(pat, '')` with a string pattern, which replaces only the first
occurrence); `s` is returned unchanged when `pat` does not occur. -/
def removeFirstOcc (pat : List Char) : List Char → List Char
  | [] => if pat.isPrefixOf ([] : List Char) then List.drop pat.length [] else []
  | c :: rest =>
    if pat.isPrefixOf (c :: rest) then (c :: rest).drop pat.length
    else c :: removeFirstOcc pat rest

/-- JS `s.replace(pat, '')` (string pattern: first occurrence only). -/
def jsReplaceEmpty (s pat : String) : String := ⟨removeFirstOcc pat.data s.data⟩

/-- `HttpServer.getRouteFullPath`: concatenate router prefix and route path,
dropping the route path's leading slash exactly when the prefix ends with a
slash and the route path starts with one. -/
def getRouteFullPath (routerPath routePath : String) : String :=
  let routePathStartIndex :=
    if jsEndsWith routerPath "/" && jsStartsWith routePath "/" then 1 else 0
  routerPath ++ jsSlice routePath routePathStartIndex

/-- Result of a PreAuth lifecycle hook, restricted to the outcomes the
base-path-rewrite hook can produce: `toolkit.rejected(error, {statusCode})`
or `toolkit.redirected(url, {forward})`. -/
inductive PreAuthResult where
  | rejected (statusCode : Nat)
  | redirected (url : String) (forward : Bool)
  deriving DecidableEq, Repr

/-- Modelled from the spec: `modifyUrl` (imported from `../../utils`, not
under `src/`) parses the URL, lets the callback mutate the parts or return a
replacement object, and formats the result back to a string; returning the
empty object `{}` from the callback formats to the empty (falsy) string.
Here specialised to the pathname, the only part the rewrite callback
touches: the callback body itself is taken verbatim from
`setupBasePathRewrite` (lines 201–207). -/
def modifyUrlPathname (pathname basePath : String) : String :=
  if jsStartsWith pathname basePath then
    let rewritten := jsReplaceEmpty pathname basePath
    if rewritten = "" then "/" else rewritten
  else
    ""

/-- The PreAuth hook installed by `HttpServer.setupBasePathRewrite`, as a
function of the captured `basePath` and the request's pathname: rewrite via
`modifyUrl`; a falsy (empty) result is rejected with 404, otherwise the
request is forwarded (`{forward: true}`) to the rewritten URL. -/
def basePathRewriteHook (basePath pathname : String) : PreAuthResult :=
  let newURL := modifyUrlPathname pathname basePath
  if newURL = "" then .rejected 404
  else .redirected newURL true

/-- A hook installed via `server.ext(...)`: either the base-path-rewrite
closure from `setupBasePathRewrite` (with its captured `basePath`) or an
opaque collaborator-supplied handler. -/
inductive InstalledHook where
  | basePathRewrite (basePath : String)
  | custom (id : Nat)
  deriving DecidableEq, Repr

/-- A route bound on the hapi server by `start`. `auth = none` models passing
`auth: undefined` (use the server's default strategy, i.e. enforce the
registered scheme); `auth = some false` models `auth: false` (bypass). -/
structure BoundRoute where
  method : String
  path : String
  handler : Nat
  auth : Option Bool
  deriving DecidableEq, Repr

/-- The slice of the hapi `Server` that `HttpServer` manipulates. -/
structure HapiServer where
  listening : Bool
  routes : List BoundRoute
  onRequestExts : List InstalledHook
  onPostAuthExts : List InstalledHook
  onPreResponseExts : List InstalledHook
  /-- `server.auth.scheme('login', ...)` + `server.auth.strategy('session', 'login')`
  have been executed (the tail of `registerAuth`). -/
  schemeInstalled : Bool
  /-- `server.auth.default('session')` has been executed. -/
  authDefaulted : Bool
  deriving DecidableEq, Repr

/-- `createServer(serverOptions)`: a fresh, not-yet-listening hapi server. -/
def createServer : HapiServer :=
  { listening := false, routes := [], onRequestExts := [], onPostAuthExts := [],
    onPreResponseExts := [], schemeInstalled := false, authDefaulted := false }

/-- The mutable fields of the `HttpServer` class instance. -/
structure HttpServerState where
  server : Option HapiServer
  registeredRouters : List Router
  authRegistered : Bool
  basePathCache : List (ReqId × String)
  authState : List (ReqId × Option String)
  deriving DecidableEq, Repr

/-- A freshly constructed `HttpServer`. -/
def initialState : HttpServerState :=
  { server := none, registeredRouters := [], authRegistered := false,
    basePathCache := [], authState := [] }

/-- `WeakMap.get`: first binding for the key, if any. -/
def wmGet {α : Type} (m : List (ReqId × α)) (k : ReqId) : Option α :=
  match m with
  | [] => none
  | (k', v) :: rest => if k' = k then some v else wmGet rest k

/-- `WeakMap.has`. -/
def wmHas {α : Type} (m : List (ReqId × α)) (k : ReqId) : Bool :=
  (wmGet m k).isSome

/-- `WeakMap.set`: the new binding shadows any old one. -/
def wmSet {α : Type} (m : List (ReqId × α)) (k : ReqId) (v : α) : List (ReqId × α) :=
  (k, v) :: m

/-- `HttpServer.isListening`. -/
def isListening (s : HttpServerState) : Bool :=
  match s.server with
  | none => false
  | some srv => srv.listening

/-- `HttpServer.registerRouter`: throws while the server is listening,
otherwise adds the router to the `Set` (no duplicate entries). -/
def registerRouter (s : HttpServerState) (r : Router) :
    HttpServerState × Option HttpError :=
  if isListening s then (s, some .routersLocked)
  else
    ({ s with registeredRouters :=
        if s.registeredRouters.contains r then s.registeredRouters
        else s.registeredRouters ++ [r] }, none)

/-- `HttpServer.getBasePathFor`: server base path (empty when unset) followed
by the per-request override (empty when absent). -/
def getBasePathFor (config : HttpConfig) (s : HttpServerState) (req : ReqId) : String :=
  let requestScopePath := (wmGet s.basePathCache req).getD ""
  let serverBasePath := config.basePath.getD ""
  serverBasePath ++ requestScopePath

/-- `HttpServer.setBasePathFor`: throws if an override is already cached for
this request identity, otherwise records the override. -/
def setBasePathFor (s : HttpServerState) (req : ReqId) (basePath : String) :
    HttpServerState × Option HttpError :=
  if wmHas s.basePathCache req then (s, some .basePathAlreadySet)
  else ({ s with basePathCache := wmSet s.basePathCache req basePath }, none)

/-- `HttpServer.registerOnPreAuth`: throws when no server exists, otherwise
appends an `onRequest` ext hook. -/
def registerOnPreAuth (s : HttpServerState) (h : InstalledHook) :
    HttpServerState × Option HttpError :=
  match s.server with
  | none => (s, some .serverNotCreated)
  | some srv =>
    ({ s with server := some { srv with onRequestExts := srv.onRequestExts ++ [h] } }, none)

/-- `HttpServer.registerOnPostAuth`. -/
def registerOnPostAuth (s : HttpServerState) (h : InstalledHook) :
    HttpServerState × Option HttpError :=
  match s.server with
  | none => (s, some .serverNotCreated)
  | some srv =>
    ({ s with server := some { srv with onPostAuthExts := srv.onPostAuthExts ++ [h] } }, none)

/-- `HttpServer.registerOnPreResponse`. -/
def registerOnPreResponse (s : HttpServerState) (h : InstalledHook) :
    HttpServerState × Option HttpError :=
  match s.server with
  | none => (s, some .serverNotCreated)
  | some srv =>
    ({ s with server := some { srv with onPreResponseExts := srv.onPreResponseExts ++ [h] } }, none)

/-- `HttpServer.setupBasePathRewrite`: no-op unless `basePath` is set and
`rewriteBasePath` is true; otherwise installs the rewrite PreAuth hook. -/
def setupBasePathRewrite (s : HttpServerState) (config : HttpConfig) :
    HttpServerState × Option HttpError :=
  match config.basePath with
  | none => (s, none)
  | some basePath =>
    if !config.rewriteBasePath then (s, none)
    else registerOnPreAuth s (.basePathRewrite basePath)

/-- `HttpServer.setup`: unconditionally creates a fresh hapi server
(overwriting any existing one) and installs the base-path rewrite; there is
no double-call guard in the source. -/
def setup (s : HttpServerState) (config : HttpConfig) :
    HttpServerState × Option HttpError :=
  let s1 := { s with server := some createServer }
  setupBasePathRewrite s1 config

/-- The route-binding step of `start` for one route of one router
(the `this.server.route({...})` call). -/
def bindRoute (authRegistered : Bool) (routerPath : String) (route : Route) : BoundRoute :=
  let isAuthRequired := authRegistered && route.authRequired
  { method := route.method,
    path := getRouteFullPath routerPath route.path,
    handler := route.handler,
    auth := if isAuthRequired then none else some false }

/-- `HttpServer.start`: throws when `setup` has not run; otherwise binds every
route of every registered router and starts listening. -/
def start (s : HttpServerState) : HttpServerState × Option HttpError :=
  match s.server with
  | none => (s, some .notSetUp)
  | some srv =>
    let bound := s.registeredRouters.flatMap fun router =>
      router.getRoutes.map (bindRoute s.authRegistered router.path)
    ({ s with server := some { srv with routes := srv.routes ++ bound, listening := true } },
     none)

/-- `HttpServer.stop`: no-op when never set up; otherwise stops and drops the
server. -/
def stop (s : HttpServerState) : HttpServerState :=
  match s.server with
  | none => s
  | some _ => { s with server := none }

/-- `HttpServer.registerAuth`. The guards run first; `authRegistered` is set
*before* the awaited cookie-session-storage construction, whose possible
rejection is modelled by `cookieFactoryFails`, and is never rolled back. -/
def registerAuth (s : HttpServerState) (cookieFactoryFails : Bool) :
    HttpServerState × Option HttpError :=
  match s.server with
  | none => (s, some .serverNotCreated)
  | some srv =>
    if s.authRegistered then (s, some .authAlreadyRegistered)
    else
      let s1 := { s with authRegistered := true }
      if cookieFactoryFails then (s1, some .cookieFactoryFailure)
      else
        let srv1 := { srv with schemeInstalled := true, authDefaulted := true }
        ({ s1 with server := some srv1 }, none)

/-- Whether the current server carries the installed auth scheme (so its
`authenticate` — and hence the state-recording callback — can run at all). -/
def schemeLive (s : HttpServerState) : Bool :=
  match s.server with
  | none => false
  | some srv => srv.schemeInstalled

/-- The state-recording callback `(req, state) => this.authState.set(req.raw.req, state)`
that `registerAuth` hands to `adoptToHapiAuthFormat`. It can only ever run as
part of the installed scheme's `authenticate`, i.e. when the current server
has the scheme installed. -/
def recordAuthState (s : HttpServerState) (req : ReqId) (state : Option String) :
    HttpServerState :=
  if schemeLive s then { s with authState := wmSet s.authState req state }
  else s

/-- The `{status, state}` record returned by `auth.get`. -/
structure AuthData where
  status : AuthStatus
  state : Option String
  deriving DecidableEq, Repr

/-- `HttpServer.getAuthData` (`auth.get`): authenticated iff a record exists
for this request identity; otherwise unauthenticated iff a scheme was
registered; otherwise unknown. -/
def getAuthData (s : HttpServerState) (req : ReqId) : AuthData :=
  let entry := wmGet s.authState req
  let hasState := entry.isSome
  { status :=
      if hasState then .authenticated
      else if s.authRegistered then .unauthenticated
      else .unknown,
    state := entry.getD none }

/-- `HttpServer.isAuthenticated` (`auth.isAuthenticated`). -/
def isAuthenticated (s : HttpServerState) (req : ReqId) : Bool :=
  (getAuthData s req).status = .authenticated

/-- One externally triggerable event on an `HttpServer` instance: a public
method call, a capability call through the object returned by `setup`, or a
run of the installed scheme's state-recording callback for some request. -/
inductive Op where
  | setup (config : HttpConfig)
  | start
  | stop
  | registerRouter (r : Router)
  | registerOnPreAuth (id : Nat)
  | registerOnPostAuth (id : Nat)
  | registerOnPreResponse (id : Nat)
  | registerAuth (cookieFactoryFails : Bool)
  | recordAuthState (req : ReqId) (state : Option String)
  | setBasePathFor (req : ReqId) (basePath : String)

/-- Apply one event; a thrown error leaves the state as it was at the throw
site (which, for `registerAuth`, is *after* the `authRegistered := true`
assignment). -/
def applyOp (s : HttpServerState) : Op → HttpServerState
  | .setup config => (setup s config).1
  | .start => (start s).1
  | .stop => stop s
  | .registerRouter r => (registerRouter s r).1
  | .registerOnPreAuth id => (registerOnPreAuth s (.custom id)).1
  | .registerOnPostAuth id => (registerOnPostAuth s (.custom id)).1
  | .registerOnPreResponse id => (registerOnPreResponse s (.custom id)).1
  | .registerAuth f => (registerAuth s f).1
  | .recordAuthState req state => recordAuthState s req state
  | .setBasePathFor req basePath => (setBasePathFor s req basePath).1

/-- The state of a fresh `HttpServer` after a sequence of events. -/
def run (ops : List Op) : HttpServerState :=
  ops.foldl applyOp initialState

/-- A sample auth-requiring route for witnesses. -/
def sampleRoute : Route :=
  { method := "get", path := "/widgets", handler := 0, authRequired := true }

/-- A sample router under "/api" for witnesses. -/
def sampleRouter : Router :=
  { path := "/api", routes := [sampleRoute] }

/-- A set-up server with `sampleRouter` registered. -/
def sampleStartState : HttpServerState :=
  (registerRouter (setup initialState ⟨none, false⟩).1 sampleRouter).1

/-- The two facts connecting the auth `WeakMap` to the `authRegistered` flag:
records exist only once a scheme was registered, and a live scheme implies a
registered scheme. -/
def AuthInv (s : HttpServerState) : Prop :=
  (∀ req, wmHas s.authState req = true → s.authRegistered = true) ∧
  (schemeLive s = true → s.authRegistered = true)

theorem setup_authState (s : HttpServerState) (cfg : HttpConfig) :
    ((setup s cfg).1).authState = s.authState := by
  simp only [setup, setupBasePathRewrite]
  cases cfg.basePath with
  | none => rfl
  | some bp =>
    by_cases hr : (!cfg.rewriteBasePath : Bool) <;> simp [hr, registerOnPreAuth]

theorem setup_authRegistered (s : HttpServerState) (cfg : HttpConfig) :
    ((setup s cfg).1).authRegistered = s.authRegistered := by
  simp only [setup, setupBasePathRewrite]
  cases cfg.basePath with
  | none => rfl
  | some bp =>
    by_cases hr : (!cfg.rewriteBasePath : Bool) <;> simp [hr, registerOnPreAuth]

theorem setup_schemeLive (s : HttpServerState) (cfg : HttpConfig) :
    schemeLive (setup s cfg).1 = false := by
  simp only [setup, setupBasePathRewrite]
  cases cfg.basePath with
  | none => rfl
  | some bp =>
    by_cases hr : (!cfg.rewriteBasePath : Bool) <;>
      simp [hr, registerOnPreAuth, schemeLive, createServer]

theorem authInv_initial : AuthInv initialState := by
  constructor
  · intro req h
    simp [initialState, wmHas, wmGet] at h
  · intro h
    simp [initialState, schemeLive] at h

theorem authInv_applyOp (s : HttpServerState) (op : Op) (h : AuthInv s) :
    AuthInv (applyOp s op) := by
  obtain ⟨h1, h2⟩ := h
  cases op with
  | setup config =>
    simp only [applyOp]
    constructor
    · intro req hh
      rw [setup_authState] at hh
      rw [setup_authRegistered]
      exact h1 req hh
    · intro hl
      rw [setup_schemeLive] at hl
      cases hl
  | start =>
    simp only [applyOp, start]
    cases hs : s.server with
    | none => exact ⟨h1, h2⟩
    | some srv =>
      constructor
      · intro req hh
        exact h1 req hh
      · intro hl
        apply h2
        simp [schemeLive, hs]
        simpa [schemeLive] using hl
  | stop =>
    simp only [applyOp, stop]
    cases hs : s.server with
    | none => exact ⟨h1, h2⟩
    | some srv =>
      constructor
      · intro req hh
        exact h1 req hh
      · intro hl
        simp [schemeLive] at hl
  | registerRouter r =>
    simp only [applyOp, registerRouter]
    split
    · exact ⟨h1, h2⟩
    · split <;> exact ⟨h1, h2⟩
  | registerOnPreAuth id =>
    simp only [applyOp, registerOnPreAuth]
    cases hs : s.server with
    | none => exact ⟨h1, h2⟩
    | some srv =>
      refine ⟨fun req hh => h1 req hh, fun hl => h2 ?_⟩
      simp [schemeLive, hs]
      simpa [schemeLive] using hl
  | registerOnPostAuth id =>
    simp only [applyOp, registerOnPostAuth]
    cases hs : s.server with
    | none => exact ⟨h1, h2⟩
    | some srv =>
      refine ⟨fun req hh => h1 req hh, fun hl => h2 ?_⟩
      simp [schemeLive, hs]
      simpa [schemeLive] using hl
  | registerOnPreResponse id =>
    simp only [applyOp, registerOnPreResponse]
    cases hs : s.server with
    | none => exact ⟨h1, h2⟩
    | some srv =>
      refine ⟨fun req hh => h1 req hh, fun hl => h2 ?_⟩
      simp [schemeLive, hs]
      simpa [schemeLive] using hl
  | registerAuth f =>
    simp only [applyOp, registerAuth]
    cases hs : s.server with
    | none => exact ⟨h1, h2⟩
    | some srv =>
      by_cases hreg : s.authRegistered = true
      · simp only [hreg, if_true]
        exact ⟨fun req _ => hreg, fun _ => hreg⟩
      · simp only [hreg, if_false]
        by_cases hf : f = true <;>
          simp only [hf, if_true, if_false] <;>
          exact ⟨fun req _ => rfl, fun _ => rfl⟩
  | recordAuthState req state =>
    simp only [applyOp, recordAuthState]
    split
    · next hl =>
      have hreg := h2 hl
      exact ⟨fun _ _ => hreg, fun _ => hreg⟩
    · exact ⟨h1, h2⟩
  | setBasePathFor req basePath =>
    simp only [applyOp, setBasePathFor]
    split
    · exact ⟨h1, h2⟩
    · exact ⟨h1, h2⟩

theorem authInv_foldl (ops : List Op) (s : HttpServerState) (h : AuthInv s) :
    AuthInv (ops.foldl applyOp s) := by
  induction ops generalizing s with
  | nil => exact h
  | cons op rest ih => exact ih _ (authInv_applyOp s op h)

theorem authInv_run (ops : List Op) : AuthInv (run ops) :=
  authInv_foldl ops initialState authInv_initial

/-- C1: after any sequence of events on a fresh `HttpServer`, `auth.get`
reports exactly one status among {authenticated, unauthenticated, unknown},
with the precedence auth-record-present ⇒ authenticated, else
scheme-registered ⇒ unauthenticated, else unknown; in particular the status
is `unknown` iff no scheme was ever registered (the `authRegistered` flag,
which is set exactly when a registration passes its guards and is never
cleared). -/
theorem auth_get_status_trichotomy (ops : List Op) (req : ReqId) :
    ((getAuthData (run ops) req).status = .authenticated ∨
     (getAuthData (run ops) req).status = .unauthenticated ∨
     (getAuthData (run ops) req).status = .unknown) ∧
    ((getAuthData (run ops) req).status = .authenticated ↔
      wmHas (run ops).authState req = true) ∧
    ((getAuthData (run ops) req).status = .unauthenticated ↔
      (wmHas (run ops).authState req = false ∧ (run ops).authRegistered = true)) ∧
    ((getAuthData (run ops) req).status = .unknown ↔
      (run ops).authRegistered = false) := by
  obtain ⟨h1, -⟩ := authInv_run ops
  by_cases hh : (wmGet (run ops).authState req).isSome = true
  · have hreg : (run ops).authRegistered = true := h1 req hh
    simp [getAuthData, wmHas, hh, hreg]
  · have hh' : (wmGet (run ops).authState req).isSome = false :=
      Bool.not_eq_true _ ▸ Bool.of_not_eq_true hh
    by_cases hr : (run ops).authRegistered = true
    · simp [getAuthData, wmHas, hh', hr]
    · have hr' : (run ops).authRegistered = false :=
        Bool.not_eq_true _ ▸ Bool.of_not_eq_true hr
      simp [getAuthData, wmHas, hh', hr']

theorem registerAuth_no_server (s : HttpServerState) (f : Bool) (h : s.server = none) :
    registerAuth s f = (s, some .serverNotCreated) := by
  unfold registerAuth
  rw [h]

theorem registerAuth_already (s : HttpServerState) (f : Bool) (srv : HapiServer)
    (hs : s.server = some srv) (hreg : s.authRegistered = true) :
    registerAuth s f = (s, some .authAlreadyRegistered) := by
  unfold registerAuth
  rw [hs]
  simp [hreg]

theorem registerAuth_fresh (s : HttpServerState) (f : Bool) (srv : HapiServer)
    (hs : s.server = some srv) (hreg : s.authRegistered = false) :
    (registerAuth s f).1.authRegistered = true ∧
    (registerAuth s f).1.server ≠ none := by
  unfold registerAuth
  rw [hs]
  by_cases hf : f = true <;> simp [hreg, hf, hs]

/-- C2: if a `registerAuth` call succeeded on a server instance, any further
`registerAuth` call on it throws ("Auth interceptor was already registered"),
whatever its arguments; and on an instance that was never `setup` (no hapi
server exists) `registerAuth` throws ("Server is not created yet"). -/
theorem registerAuth_twice_fails (s : HttpServerState) (f1 f2 : Bool)
    (h : (registerAuth s f1).2 = none) :
    (registerAuth (registerAuth s f1).1 f2).2 = some .authAlreadyRegistered ∧
    (∀ s' : HttpServerState, s'.server = none →
      (registerAuth s' f2).2 = some .serverNotCreated) := by
  constructor
  · cases hs : s.server with
    | none => rw [registerAuth_no_server s f1 hs] at h; cases h
    | some srv =>
      by_cases hreg : s.authRegistered = true
      · rw [registerAuth_already s f1 srv hs hreg] at h; cases h
      · have hreg' : s.authRegistered = false := by
          cases hb : s.authRegistered
          · rfl
          · exact absurd hb hreg
        obtain ⟨hflag, hsome⟩ := registerAuth_fresh s f1 srv hs hreg'
        cases hs2 : (registerAuth s f1).1.server with
        | none => exact absurd hs2 hsome
        | some srv2 => rw [registerAuth_already _ f2 srv2 hs2 hflag]
  · intro s' hs'
    rw [registerAuth_no_server s' f2 hs']

/-- Witness for C2: on a freshly set-up server, the first `registerAuth`
succeeds and the second throws; on a fresh (never set-up) instance
`registerAuth` throws. -/
theorem registerAuth_twice_fails_witness :
    (registerAuth (registerAuth (setup initialState ⟨none, false⟩).1 false).1 false).2 =
        some .authAlreadyRegistered ∧
    (registerAuth initialState false).2 = some .serverNotCreated := by
  have h := registerAuth_twice_fails (setup initialState ⟨none, false⟩).1 false false (by decide)
  exact ⟨h.1, h.2 initialState (by decide)⟩

/-- C10: once a `registerAuth` call passes its precondition checks (a server
exists and no scheme is registered yet), `authRegistered` is true in the
resulting state even when the awaited cookie-session-store construction
fails, and every subsequent `registerAuth` call throws — the flag is set
before the asynchronous part and never rolled back. -/
theorem registerAuth_flag_set_before_async (s : HttpServerState) (f1 f2 : Bool)
    (srv : HapiServer) (hs : s.server = some srv) (hreg : s.authRegistered = false) :
    (registerAuth s f1).1.authRegistered = true ∧
    (registerAuth (registerAuth s f1).1 f2).2 = some .authAlreadyRegistered := by
  obtain ⟨hflag, hsome⟩ := registerAuth_fresh s f1 srv hs hreg
  refine ⟨hflag, ?_⟩
  cases hs2 : (registerAuth s f1).1.server with
  | none => exact absurd hs2 hsome
  | some srv2 => rw [registerAuth_already _ f2 srv2 hs2 hflag]

/-- Witness for C10, with the first call's asynchronous portion failing
(`cookieFactoryFails = true`): the flag is still set and the second call
still throws. -/
theorem registerAuth_flag_set_before_async_witness :
    (registerAuth (setup initialState ⟨none, false⟩).1 true).1.authRegistered = true ∧
    (registerAuth (registerAuth (setup initialState ⟨none, false⟩).1 true).1 false).2 =
      some .authAlreadyRegistered :=
  registerAuth_flag_set_before_async (setup initialState ⟨none, false⟩).1 true false
    createServer (by decide) (by decide)

/-- C6: `setBasePathFor` on a request identity that already has a cached
override throws ("Request basePath was previously set...") for every new
override value, and leaves the instance state — in particular the existing
override — unchanged. -/
theorem setBasePathFor_twice_fails (s : HttpServerState) (req : ReqId) (bp : String)
    (h : wmHas s.basePathCache req = true) :
    (setBasePathFor s req bp).2 = some .basePathAlreadySet ∧
    (setBasePathFor s req bp).1 = s := by
  unfold setBasePathFor
  simp [h]

/-- Witness for C6: set an override for request 0, then try to set another. -/
theorem setBasePathFor_twice_fails_witness :
    (setBasePathFor (setBasePathFor initialState 0 "/x").1 0 "/y").2 =
        some .basePathAlreadySet ∧
    (setBasePathFor (setBasePathFor initialState 0 "/x").1 0 "/y").1 =
      (setBasePathFor initialState 0 "/x").1 :=
  setBasePathFor_twice_fails (setBasePathFor initialState 0 "/x").1 0 "/y" (by decide)

/-- C7: while the server is listening, `registerRouter` throws ("Routers can
be registered only when HTTP server is stopped.") and the instance state —
in particular the registered-router set — is unchanged; while not listening
it succeeds and the router is in the set afterwards. -/
theorem registerRouter_locked_while_listening (s : HttpServerState) (r : Router) :
    (isListening s = true →
      (registerRouter s r).2 = some .routersLocked ∧
      (registerRouter s r).1 = s) ∧
    (isListening s = false →
      (registerRouter s r).2 = none ∧
      r ∈ (registerRouter s r).1.registeredRouters) := by
  constructor
  · intro hl
    unfold registerRouter
    simp [hl]
  · intro hl
    unfold registerRouter
    simp only [hl, Bool.false_eq_true, if_false]
    refine ⟨by simp, ?_⟩
    by_cases hc : s.registeredRouters.contains r = true
    · simp only [hc, if_true]
      simpa using hc
    · simp only [hc, if_false]
      exact List.mem_append.2 (Or.inr (List.mem_singleton.2 rfl))

/-- Witness for C7: registering on a started server fails and changes
nothing; registering on a fresh instance succeeds. -/
theorem registerRouter_locked_while_listening_witness :
    ((registerRouter (start (setup initialState ⟨none, false⟩).1).1
        ⟨"/api", []⟩).2 = some .routersLocked ∧
      (registerRouter (start (setup initialState ⟨none, false⟩).1).1
        ⟨"/api", []⟩).1 = (start (setup initialState ⟨none, false⟩).1).1) ∧
    ((registerRouter initialState ⟨"/api", []⟩).2 = none ∧
      (⟨"/api", []⟩ : Router) ∈
        (registerRouter initialState ⟨"/api", []⟩).1.registeredRouters) :=
  ⟨(registerRouter_locked_while_listening
      (start (setup initialState ⟨none, false⟩).1).1 ⟨"/api", []⟩).1 (by decide),
   (registerRouter_locked_while_listening initialState ⟨"/api", []⟩).2 (by decide)⟩

/-- C8: `start` on a set-up server succeeds, and every route of every
registered router is bound with `auth: undefined` (enforce the default
strategy, i.e. the registered scheme) exactly when the route requires auth
AND a scheme is registered, and with `auth: false` (bypass) otherwise. -/
theorem start_auth_enforcement (s : HttpServerState) (srv : HapiServer)
    (h : s.server = some srv) :
    (start s).2 = none ∧
    ∃ srv', (start s).1.server = some srv' ∧
      ∀ router ∈ s.registeredRouters, ∀ route ∈ router.getRoutes,
        bindRoute s.authRegistered router.path route ∈ srv'.routes ∧
        ((bindRoute s.authRegistered router.path route).auth = none ↔
          (route.authRequired = true ∧ s.authRegistered = true)) ∧
        ((bindRoute s.authRegistered router.path route).auth = some false ↔
          (route.authRequired = false ∨ s.authRegistered = false)) := by
  unfold start
  rw [h]
  refine ⟨rfl, _, rfl, ?_⟩
  intro router hrouter route hroute
  refine ⟨?_, ?_, ?_⟩
  · exact List.mem_append.2 (Or.inr
      (List.mem_flatMap.2 ⟨router, hrouter, List.mem_map.2 ⟨route, hroute, rfl⟩⟩))
  · cases hA : s.authRegistered <;> cases hR : route.authRequired <;>
      simp [bindRoute, hA, hR]
  · cases hA : s.authRegistered <;> cases hR : route.authRequired <;>
      simp [bindRoute, hA, hR]

/-- Witness for C8 on `sampleStartState`. -/
theorem start_auth_enforcement_witness :
    sampleStartState.server = some createServer ∧
    ((start sampleStartState).2 = none ∧
      ∃ srv', (start sampleStartState).1.server = some srv' ∧
        ∀ router ∈ sampleStartState.registeredRouters, ∀ route ∈ router.getRoutes,
          bindRoute sampleStartState.authRegistered router.path route ∈ srv'.routes ∧
          ((bindRoute sampleStartState.authRegistered router.path route).auth = none ↔
            (route.authRequired = true ∧ sampleStartState.authRegistered = true)) ∧
          ((bindRoute sampleStartState.authRegistered router.path route).auth = some false ↔
            (route.authRequired = false ∨ sampleStartState.authRegistered = false))) :=
  ⟨by decide, start_auth_enforcement sampleStartState createServer (by decide)⟩

/-- C3 counterexample: joining router prefix "/api" with route path "widgets"
DOES produce "/apiwidgets" — `getRouteFullPath` is plain concatenation except
for the slash collapse, so the claim's "NOT produced" is false on the code. -/
theorem getRouteFullPath_concat_counterexample :
    getRouteFullPath "/api" "widgets" = "/apiwidgets" := by decide

/-- C3 amended: the full bound path is the router prefix concatenated with
the route path, dropping exactly one slash when the prefix ends with '/' and
the route path starts with '/' (so "/api/" + "/widgets" = "/api/widgets"),
and plain concatenation otherwise (so "/api" + "widgets" = "/apiwidgets"). -/
theorem getRouteFullPath_join (routerPath routePath : String) :
    ((jsEndsWith routerPath "/" && jsStartsWith routePath "/") = true →
      getRouteFullPath routerPath routePath = routerPath ++ jsSlice routePath 1) ∧
    ((jsEndsWith routerPath "/" && jsStartsWith routePath "/") = false →
      getRouteFullPath routerPath routePath = routerPath ++ routePath) ∧
    getRouteFullPath "/api/" "/widgets" = "/api/widgets" := by
  refine ⟨?_, ?_, by decide⟩
  · intro h
    simp [getRouteFullPath, h]
  · intro h
    simp [getRouteFullPath, h, jsSlice]

/-- Witness for C3's amended statement at both example joins. -/
theorem getRouteFullPath_join_witness :
    getRouteFullPath "/api/" "/widgets" = "/api/" ++ jsSlice "/widgets" 1 ∧
    getRouteFullPath "/api" "widgets" = "/api" ++ "widgets" :=
  ⟨(getRouteFullPath_join "/api/" "/widgets").1 (by decide),
   (getRouteFullPath_join "/api" "widgets").2.1 (by decide)⟩

/-- C4 counterexample: calling `setup` a second time on the same instance
returns without any error — `HttpServer.setup` has no double-call guard. -/
theorem setup_twice_counterexample :
    (setup (setup initialState ⟨some "/app", true⟩).1 ⟨some "/app", true⟩).2 = none := by
  decide

/-- C4 amended: `setup` never throws; called a second (or any) time it
silently reconfigures the instance, replacing the hapi server with a freshly
created, not-yet-listening one. -/
theorem setup_silently_reconfigures (s : HttpServerState) (cfg : HttpConfig) :
    (setup s cfg).2 = none ∧
    ∃ srv, (setup s cfg).1.server = some srv ∧ srv.listening = false ∧
      srv.routes = [] ∧ srv.schemeInstalled = false := by
  unfold setup setupBasePathRewrite
  cases cfg.basePath with
  | none => exact ⟨rfl, createServer, rfl, rfl, rfl, rfl⟩
  | some bp =>
    by_cases hr : (!cfg.rewriteBasePath : Bool) = true <;>
      simp [hr, registerOnPreAuth, createServer]

/-- C5: with config `{basePath: "/app", rewriteBasePath: true}`, `setup`
installs the base-path-rewrite PreAuth hook, which internally forwards a
request with path "/app/foo" to "/foo" (`forward = true`) and rejects a
request with path "/other" with status 404. -/
theorem basePathRewrite_scenario :
    (setup initialState ⟨some "/app", true⟩).2 = none ∧
    (∃ srv, (setup initialState ⟨some "/app", true⟩).1.server = some srv ∧
      srv.onRequestExts = [.basePathRewrite "/app"]) ∧
    basePathRewriteHook "/app" "/app/foo" = .redirected "/foo" true ∧
    basePathRewriteHook "/app" "/other" = .rejected 404 := by
  refine ⟨by decide,
    ⟨{ createServer with onRequestExts := [.basePathRewrite "/app"] }, by decide, rfl⟩,
    by decide, by decide⟩

theorem isPrefixOf_append (l₁ l₂ : List Char) : l₁.isPrefixOf (l₁ ++ l₂) = true := by
  induction l₁ with
  | nil => simp [List.isPrefixOf]
  | cons c t ih => simp [List.isPrefixOf, ih]

theorem removeFirstOcc_startsWith (pat s : List Char) (h : pat.isPrefixOf s = true) :
    removeFirstOcc pat s = s.drop pat.length := by
  cases s with
  | nil => simp [removeFirstOcc, h]
  | cons c rest => simp [removeFirstOcc, h]

/-- C9: the rewrite hook matches the base path as a raw string prefix of the
pathname, not as a path-segment prefix: every pathname of the form
`basePath ++ rest` is internally forwarded to `rest` with the prefix string
removed (to "/" when nothing remains), and 404 is produced exactly when the
pathname does not start with the basePath string; in particular pathname
"/application" with basePath "/app" is forwarded to "lication", not
rejected. -/
theorem basePathRewrite_rawPrefixMatch (bp rest pathname : String) :
    (basePathRewriteHook bp (bp ++ rest) =
      .redirected (if rest = "" then "/" else rest) true) ∧
    (basePathRewriteHook bp pathname = .rejected 404 ↔
      jsStartsWith pathname bp = false) ∧
    basePathRewriteHook "/app" "/application" = .redirected "lication" true := by
  refine ⟨?_, ?_, by decide⟩
  · have hpre : bp.data.isPrefixOf (bp ++ rest).data = true := by
      rw [String.data_append]
      exact isPrefixOf_append bp.data rest.data
    have hsw : jsStartsWith (bp ++ rest) bp = true := hpre
    have hrem : jsReplaceEmpty (bp ++ rest) bp = rest := by
      unfold jsReplaceEmpty
      rw [removeFirstOcc_startsWith _ _ hpre, String.data_append, List.drop_left]
    have hm : modifyUrlPathname (bp ++ rest) bp = if rest = "" then "/" else rest := by
      unfold modifyUrlPathname
      simp only [hsw, hrem, eq_self_iff_true, if_true]
    unfold basePathRewriteHook
    rw [hm]
    by_cases hr : rest = ""
    · subst hr
      decide
    · simp [hr]
  · unfold basePathRewriteHook modifyUrlPathname
    by_cases hsw : jsStartsWith pathname bp = true
    · by_cases hz : jsReplaceEmpty pathname bp = "" <;> simp [hsw, hz]
    · have hsw' : jsStartsWith pathname bp = false := by
        cases hb : jsStartsWith pathname bp
        · rfl
        · exact absurd hb hsw
      simp [hsw']

end HttpSrv
